import Mathlib

/-!
Shallow embedding of the debug tooling of Display-Ambient-Light-Desktop:
`src/debug_tools/virtual_led_board.py` (the Device Responder) and
`src/debug_tools/packet_interceptor.py` (the Intercepting Relay).

A UDP datagram is modelled as a list of byte values (natural numbers,
bounded by 256 where the arithmetic depends on it).  The stateful receive
loops are modelled by explicit state records and per-datagram transition
functions; the printed diagnostics that matter to the verified properties
are modelled as explicit log values.
-/

namespace AmbientLight

/-- A UDP datagram: a sequence of byte values. -/
abbrev Datagram := List Nat

/-- `VirtualLedBoard._analyze_led_colors`: the GRB interpretation (count
`len / 3`) applies when the length is divisible by 3, and independently the
GRBW interpretation (count `len / 4`) when divisible by 4. -/
def analyze_led_colors (led_data : Datagram) : Option Nat × Option Nat :=
  (if led_data.length % 3 = 0 then some (led_data.length / 3) else none,
   if led_data.length % 4 = 0 then some (led_data.length / 4) else none)

/-- Result of a successful `VirtualLedBoard._analyze_led_data_packet`. -/
structure LedAnalysis where
  offset : Nat
  ledData : Datagram
  grbCount : Option Nat
  grbwCount : Option Nat
  deriving DecidableEq

/-- `VirtualLedBoard._analyze_led_data_packet`: `none` models the
early return on fewer than 3 bytes (the TooShort log); otherwise the offset
is read big-endian from bytes 1..2, the colour bytes are `data[3:]`, and the
colour analysis runs only when the colour bytes are non-empty. -/
def analyze_led_data_packet (data : Datagram) : Option LedAnalysis :=
  if data.length < 3 then none
  else
    let led_data := data.drop 3
    let counts := if led_data.length > 0 then analyze_led_colors led_data
                  else (none, none)
    some { offset := (data.getD 1 0) <<< 8 ||| data.getD 2 0,
           ledData := led_data,
           grbCount := counts.1,
           grbwCount := counts.2 }

/-- The diagnostic fields of `VirtualLedBoard` that `_process_packet`
mutates: the packet counter and the last-arrival timestamp (time is
modelled as a natural number). -/
structure BoardDiag where
  packet_count : Nat
  last_packet_time : Option Nat
  deriving DecidableEq

/-- What one `_process_packet` call reports besides its reply. -/
inductive BoardLog where
  | emptyPacket
  | heartbeat
  | ledData (analysis : Option LedAnalysis)
  | config
  | connectionCheck
  | unknown (command : Nat)
  deriving DecidableEq

/-- `VirtualLedBoard._process_packet`: increments the packet counter and
updates the last-arrival timestamp, then (for non-empty data) dispatches on
the first byte: 0x01 replies `[0x01]`, 0x02 analyzes the LED payload and
replies `[0x00]`, 0x03 replies `[0x00]`, 0x04 replies `[0x04, 0x01]`, any
other byte replies nothing and dumps the bytes.  Returns the updated
diagnostics, the reply datagram (if any), and the log record. -/
def process_packet (s : BoardDiag) (data : Datagram) (now : Nat) :
    BoardDiag × Option Datagram × BoardLog :=
  let s1 : BoardDiag :=
    { packet_count := s.packet_count + 1, last_packet_time := some now }
  match data with
  | [] => (s1, none, .emptyPacket)
  | command :: _ =>
    if command = 0x01 then (s1, some [0x01], .heartbeat)
    else if command = 0x02 then
      (s1, some [0x00], .ledData (analyze_led_data_packet data))
    else if command = 0x03 then (s1, some [0x00], .config)
    else if command = 0x04 then (s1, some [0x04, 0x01], .connectionCheck)
    else (s1, none, .unknown command)

/-- `recvfrom` buffer size in `VirtualLedBoard._receive_loop`. -/
def RESPONDER_RECV_BUFSIZE : Nat := 1024

/-- `recvfrom` buffer size in `PacketInterceptor.start_interceptor`. -/
def RELAY_RECV_BUFSIZE : Nat := 65536

/-- The LED capacity advertised in the mDNS TXT record (`max_leds`). -/
def MAX_LEDS : Nat := 500

/-- A UDP `recvfrom` with buffer size `n` delivers the first `n` bytes of
the arriving datagram; any excess is not seen by the caller. -/
def recvfrom (bufsize : Nat) (datagram : Datagram) : Datagram :=
  datagram.take bufsize

/-- The Responder's per-datagram read. -/
def board_receive (datagram : Datagram) : Datagram :=
  recvfrom RESPONDER_RECV_BUFSIZE datagram

/-- The Relay's per-datagram read. -/
def relay_receive (datagram : Datagram) : Datagram :=
  recvfrom RELAY_RECV_BUFSIZE datagram

/-- Successful parse in `PacketInterceptor.analyze_packet`. -/
structure RelayAnalysis where
  protocol : Nat
  offset : Nat
  ledDataLen : Nat
  grbCount : Option Nat
  grbwCount : Option Nat
  deriving DecidableEq

/-- `PacketInterceptor.analyze_led_data`: the same two divisibility-driven
interpretations as the board's colour analysis. -/
def relay_analyze_led_data (led_data : Datagram) : Option Nat × Option Nat :=
  (if led_data.length % 3 = 0 then some (led_data.length / 3) else none,
   if led_data.length % 4 = 0 then some (led_data.length / 4) else none)

/-- `PacketInterceptor.analyze_packet`: any datagram of length at least 3
is parsed as an LED-data frame — protocol byte, big-endian offset from
bytes 1..2, colour bytes `data[3:]` — irrespective of what the command byte
is; any shorter datagram is logged as too short to parse (`none`). -/
def relay_analyze_packet (data : Datagram) : Option RelayAnalysis :=
  if 3 ≤ data.length then
    let led_len := data.length - 3
    let counts := if led_len > 0 then relay_analyze_led_data (data.drop 3)
                  else (none, none)
    some { protocol := data.getD 0 0,
           offset := (data.getD 1 0) <<< 8 ||| data.getD 2 0,
           ledDataLen := led_len,
           grbCount := counts.1,
           grbwCount := counts.2 }
  else none

/-- Effects of one iteration of the relay receive-loop body: the counter
increment, the log analysis, and the outbound sends to the configured
target address, in order. -/
structure RelayEffects where
  newCount : Nat
  analysis : Option RelayAnalysis
  sends : List Datagram
  deriving DecidableEq

/-- One iteration of `PacketInterceptor.start_interceptor`'s loop body:
bump the packet counter, analyze the datagram for logging, and forward the
received bytes — the original object, unmodified — to the target in a
single send. -/
def relay_handle_datagram (packet_count : Nat) (data : Datagram) :
    RelayEffects :=
  { newCount := packet_count + 1,
    analysis := relay_analyze_packet data,
    sends := [data] }

/-- Lifecycle flags of a `VirtualLedBoard` touched by `start` and `stop`.
`hasSocket` records that `self.socket` is set, `hasMdns` that both
`self.zeroconf` and `self.service_info` are set. -/
structure BoardLifecycle where
  running : Bool
  hasSocket : Bool
  socketOpen : Bool
  hasMdns : Bool
  mdnsPublished : Bool
  receiveLoopStarted : Bool
  deriving DecidableEq

/-- Environment facts `VirtualLedBoard.start` depends on: whether the
zeroconf import succeeded (`MDNS_AVAILABLE`), whether the socket bind
succeeds, and whether `_start_mdns_service` succeeds (local address
resolved and registration succeeded). -/
structure StartEnv where
  mdnsAvailable : Bool
  bindOk : Bool
  mdnsPublishOk : Bool
  deriving DecidableEq

/-- `VirtualLedBoard.start`: a bind failure is caught and reported by
returning `false`; otherwise the board is Running, mDNS publication is
attempted only when available and its failure merely leaves the service
unpublished, the receive thread is started, and `true` is returned.  In
the failing branch the socket object was created before `bind` raised. -/
def VirtualLedBoard.start (env : StartEnv) : Bool × BoardLifecycle :=
  if env.bindOk then
    let published := env.mdnsAvailable && env.mdnsPublishOk
    (true, { running := true, hasSocket := true, socketOpen := true,
             hasMdns := published, mdnsPublished := published,
             receiveLoopStarted := true })
  else
    (false, { running := false, hasSocket := true, socketOpen := true,
              hasMdns := false, mdnsPublished := false,
              receiveLoopStarted := false })

/-- `VirtualLedBoard.stop`: clears the running flag, unregisters the mDNS
service when one is present (exceptions swallowed), and closes the socket
when one is present.  Total: no path raises. -/
def VirtualLedBoard.stop (s : BoardLifecycle) : BoardLifecycle :=
  { s with running := false,
           mdnsPublished := if s.hasMdns then false else s.mdnsPublished,
           socketOpen := if s.hasSocket then false else s.socketOpen }

/-- Lifecycle flags of a `PacketInterceptor`: the running flag and the two
sockets opened by `start_interceptor`. -/
structure RelayLifecycle where
  running : Bool
  listenSocketOpen : Bool
  forwardSocketOpen : Bool
  deriving DecidableEq

/-- `PacketInterceptor.stop`: clears the running flag and nothing else; the
sockets are closed by `start_interceptor`'s own cleanup when its loop
exits, not by `stop`. -/
def PacketInterceptor.stop (s : RelayLifecycle) : RelayLifecycle :=
  { s with running := false }

/-! ## Theorems -/

/-- C2: every datagram received on the relay's listen port — of any length
and with any command byte, empty and undecodable datagrams included — is
forwarded to the configured target in exactly one send whose byte content
and length equal the received datagram exactly, with no re-encoding from
the decoded form. -/
theorem relay_forward_byte_identical (packet_count : Nat) (data : Datagram) :
    (relay_handle_datagram packet_count data).sends = [data] ∧
    (relay_handle_datagram packet_count data).sends.length = 1 ∧
    (relay_handle_datagram packet_count data).sends.all
      (fun out => out = data && out.length = data.length) = true := by
  refine ⟨rfl, rfl, ?_⟩
  simp [relay_handle_datagram]

/-- C3: for a non-empty datagram the Responder's reply is determined by the
first byte: 0x01 yields exactly `[0x01]`, 0x04 yields exactly
`[0x04, 0x01]`, 0x03 yields exactly `[0x00]`, and any first byte outside
0x01..0x04 yields no reply, only the diagnostic dump of the unknown
command. -/
theorem responder_reply_by_first_byte (s : BoardDiag) (now : Nat) :
    (∀ rest : Datagram,
      (process_packet s (0x01 :: rest) now).2.1 = some [0x01]) ∧
    (∀ rest : Datagram,
      (process_packet s (0x04 :: rest) now).2.1 = some [0x04, 0x01]) ∧
    (∀ rest : Datagram,
      (process_packet s (0x03 :: rest) now).2.1 = some [0x00]) ∧
    (∀ (b : Nat) (rest : Datagram),
      b ≠ 0x01 → b ≠ 0x02 → b ≠ 0x03 → b ≠ 0x04 →
      (process_packet s (b :: rest) now).2.1 = none ∧
      (process_packet s (b :: rest) now).2.2 = BoardLog.unknown b) := by
  refine ⟨fun rest => rfl, fun rest => rfl, fun rest => rfl,
          fun b rest h1 h2 h3 h4 => ?_⟩
  simp [process_packet, h1, h2, h3, h4]

/-- Witness for C3 at the concrete inputs `[0x01]`, `[0x04]`, `[0x03]` and
`[0x07, 0xAA]`. -/
theorem responder_reply_by_first_byte_witness :
    (process_packet ⟨0, none⟩ [0x01] 0).2.1 = some [0x01] ∧
    (process_packet ⟨0, none⟩ [0x04] 0).2.1 = some [0x04, 0x01] ∧
    (process_packet ⟨0, none⟩ [0x03] 0).2.1 = some [0x00] ∧
    (process_packet ⟨0, none⟩ [0x07, 0xAA] 0).2.1 = none :=
  ⟨(responder_reply_by_first_byte ⟨0, none⟩ 0).1 [],
   (responder_reply_by_first_byte ⟨0, none⟩ 0).2.1 [],
   (responder_reply_by_first_byte ⟨0, none⟩ 0).2.2.1 [],
   ((responder_reply_by_first_byte ⟨0, none⟩ 0).2.2.2 0x07 [0xAA]
     (by decide) (by decide) (by decide) (by decide)).1⟩

/-- C4 counterexample: handling a zero-length datagram does mutate Responder
state — from the initial diagnostics, the packet counter becomes 1 and the
last-arrival timestamp is set. -/
theorem empty_packet_mutates_state :
    (process_packet ⟨0, none⟩ [] 1).1.packet_count ≠ 0 ∧
    (process_packet ⟨0, none⟩ [] 1).1.last_packet_time ≠ none := by
  decide

/-- C4 (amended): a zero-length datagram is rejected without a reply and
without any protocol dispatch (it is logged as an empty packet), but the
packet counter is incremented and the last-arrival timestamp is updated
before the length check, so exactly those two fields change. -/
theorem empty_packet_no_reply (s : BoardDiag) (now : Nat) :
    process_packet s [] now =
      ({ packet_count := s.packet_count + 1, last_packet_time := some now },
       none, BoardLog.emptyPacket) := rfl

/-- C9: the Responder reads at most 1024 bytes per datagram, so a longer
datagram is processed as its first 1024 bytes only; both full frames for
the advertised 500-LED capacity (3-byte header plus 1500 GRB or 2000 GRBW
colour bytes) exceed that buffer, so they are never seen whole; the Relay
reads up to 65536 bytes and sees any datagram that fits whole. -/
theorem recv_buffer_sizes (d e : Datagram)
    (hd : RESPONDER_RECV_BUFSIZE < d.length)
    (he : e.length ≤ RELAY_RECV_BUFSIZE) :
    board_receive d = d.take 1024 ∧
    (board_receive d).length = 1024 ∧
    (board_receive d).length < d.length ∧
    RESPONDER_RECV_BUFSIZE < 3 + MAX_LEDS * 3 ∧
    RESPONDER_RECV_BUFSIZE < 3 + MAX_LEDS * 4 ∧
    RELAY_RECV_BUFSIZE = 65536 ∧
    relay_receive e = e := by
  have hd' : (1024 : Nat) < d.length := hd
  refine ⟨rfl, ?_, ?_, by decide, by decide, rfl, ?_⟩
  · simp [board_receive, recvfrom, RESPONDER_RECV_BUFSIZE]
    omega
  · simp [board_receive, recvfrom, RESPONDER_RECV_BUFSIZE]
    omega
  · exact List.take_of_length_le he

/-- Witness for C9: a full 500-LED GRB frame (1503 bytes) at the Responder
and a heartbeat datagram at the Relay. -/
theorem recv_buffer_sizes_witness :
    board_receive (List.replicate 1503 0) = (List.replicate 1503 0).take 1024 ∧
    (board_receive (List.replicate 1503 0)).length = 1024 ∧
    (board_receive (List.replicate 1503 0)).length <
      (List.replicate 1503 (0 : Nat)).length ∧
    RESPONDER_RECV_BUFSIZE < 3 + MAX_LEDS * 3 ∧
    RESPONDER_RECV_BUFSIZE < 3 + MAX_LEDS * 4 ∧
    RELAY_RECV_BUFSIZE = 65536 ∧
    relay_receive [0x01] = [0x01] :=
  recv_buffer_sizes (List.replicate 1503 0) [0x01]
    (by rw [List.length_replicate]; decide) (by decide)

/-- Helper: bytes below 256 combine by shift-then-or exactly as big-endian
base-256 digits. -/
theorem shiftLeft_or_eq_base256 (b1 b2 : Nat) (h : b2 < 256) :
    (b1 <<< 8) ||| b2 = b1 * 256 + b2 := by
  have e : (2 : Nat) ^ 8 = 256 := by norm_num
  have h2 : b2 < 2 ^ 8 := by omega
  calc (b1 <<< 8) ||| b2 = 2 ^ 8 * b1 ||| b2 := by
        rw [Nat.shiftLeft_eq, Nat.mul_comm]
    _ = 2 ^ 8 * b1 + b2 := (Nat.mul_add_lt_is_or h2 b1).symm
    _ = b1 * 256 + b2 := by rw [e, Nat.mul_comm]

/-- Helper: an in-range read from an all-bytes list is a byte. -/
theorem getD_lt_256 (l : List Nat) (i : Nat) (hi : i < l.length)
    (hb : ∀ b ∈ l, b < 256) : l.getD i 0 < 256 := by
  rw [List.getD_eq_getElem?_getD, List.getElem?_eq_getElem hi]
  exact hb _ (List.getElem_mem hi)

/-- C1 counterexample: the one-byte datagram `[0x02]` is shorter than
3 bytes, so the LED-data analysis fails, yet the Responder still sends the
ack reply `[0x00]` back to the sender. -/
theorem short_led_packet_counterexample :
    analyze_led_data_packet [0x02] = none ∧
    (process_packet ⟨0, none⟩ [0x02] 0).2.1 = some [0x00] := by
  decide

/-- C1 (amended): for a datagram whose first byte is 0x02 and whose total
length is under 3 bytes, the LED-data analysis fails (TooShort, logged as a
failed analysis) and the payload is dropped from analysis, but the
Responder still replies with the single ack byte 0x00 — only the
zero-length datagram goes unanswered. -/
theorem short_led_packet_acked (s : BoardDiag) (data : Datagram) (now : Nat)
    (hhead : data.head? = some 0x02) (hlen : data.length < 3) :
    analyze_led_data_packet data = none ∧
    (process_packet s data now).2.1 = some [0x00] ∧
    (process_packet s data now).2.2 = BoardLog.ledData none := by
  have hana : analyze_led_data_packet data = none := by
    simp [analyze_led_data_packet, hlen]
  cases data with
  | nil => simp at hhead
  | cons c rest =>
    simp only [List.head?_cons, Option.some_inj] at hhead
    subst hhead
    exact ⟨hana, by simp [process_packet], by simp [process_packet, hana]⟩

/-- Witness for C1 (amended) at the concrete two-byte datagram
`[0x02, 0x00]`. -/
theorem short_led_packet_acked_witness :
    analyze_led_data_packet [0x02, 0x00] = none ∧
    (process_packet ⟨3, some 7⟩ [0x02, 0x00] 9).2.1 = some [0x00] ∧
    (process_packet ⟨3, some 7⟩ [0x02, 0x00] 9).2.2 = BoardLog.ledData none :=
  short_led_packet_acked ⟨3, some 7⟩ [0x02, 0x00] 9 (by decide) (by decide)

/-- C5 counterexample: the minimal LED-data frame `[0x02, 0x00, 0x00]` has
empty colour bytes, whose length 0 is divisible by 3 and by 4, yet neither
the GRB nor the GRBW interpretation is reported, because the colour
analysis only runs on non-empty colour bytes. -/
theorem empty_colorbytes_counterexample :
    (0 : Nat) % 3 = 0 ∧ (0 : Nat) % 4 = 0 ∧
    Option.bind (analyze_led_data_packet [0x02, 0x00, 0x00])
      (fun a => a.grbCount) = none ∧
    Option.bind (analyze_led_data_packet [0x02, 0x00, 0x00])
      (fun a => a.grbwCount) = none := by
  decide

/-- C5 (amended): for every LED-data frame of total length at least 3, the
GRB interpretation is reported with count `len(colorBytes) / 3` exactly
when the colour bytes are non-empty and their length is divisible by 3,
and independently the GRBW interpretation with count `len(colorBytes) / 4`
exactly when they are non-empty and their length is divisible by 4; with
empty colour bytes the colour analysis is skipped entirely, so neither
interpretation is reported there. -/
theorem led_interpretations (data : Datagram)
    (hcmd : data.head? = some 0x02) (h3 : 3 ≤ data.length) :
    Option.bind (analyze_led_data_packet data) (fun a => a.grbCount)
      = (if data.length - 3 ≠ 0 ∧ (data.length - 3) % 3 = 0
         then some ((data.length - 3) / 3) else none) ∧
    Option.bind (analyze_led_data_packet data) (fun a => a.grbwCount)
      = (if data.length - 3 ≠ 0 ∧ (data.length - 3) % 4 = 0
         then some ((data.length - 3) / 4) else none) := by
  have hlt : ¬ data.length < 3 := by omega
  by_cases h0 : data.length - 3 = 0
  · simp [analyze_led_data_packet, hlt, h0]
  · simp [analyze_led_data_packet, hlt, h0, analyze_led_colors,
          Nat.pos_of_ne_zero h0]

/-- Witness for C5 (amended) at the concrete frame
`[0x02, 0x00, 0x00, 9, 9, 9]`: three colour bytes, GRB applies with one
LED, GRBW does not apply. -/
theorem led_interpretations_witness :
    Option.bind (analyze_led_data_packet [0x02, 0x00, 0x00, 9, 9, 9])
      (fun a => a.grbCount) = some 1 ∧
    Option.bind (analyze_led_data_packet [0x02, 0x00, 0x00, 9, 9, 9])
      (fun a => a.grbwCount) = none :=
  ⟨(led_interpretations [0x02, 0x00, 0x00, 9, 9, 9]
      (by decide) (by decide)).1.trans (by decide),
   (led_interpretations [0x02, 0x00, 0x00, 9, 9, 9]
      (by decide) (by decide)).2.trans (by decide)⟩

/-- C6: for every datagram with first byte 0x02 and total length at least
3 whose entries are bytes, the decoded offset equals
`bytes[1] * 256 + bytes[2]` — the big-endian unsigned 16-bit value, hence
at most 65535 — and the colour bytes are exactly `bytes[3:]`. -/
theorem led_offset_big_endian (data : Datagram)
    (hcmd : data.head? = some 0x02) (h3 : 3 ≤ data.length)
    (hbytes : ∀ b ∈ data, b < 256) :
    Option.map LedAnalysis.offset (analyze_led_data_packet data)
      = some (data.getD 1 0 * 256 + data.getD 2 0) ∧
    data.getD 1 0 * 256 + data.getD 2 0 ≤ 65535 ∧
    Option.map LedAnalysis.ledData (analyze_led_data_packet data)
      = some (data.drop 3) := by
  have hb1 : data.getD 1 0 < 256 := getD_lt_256 data 1 (by omega) hbytes
  have hb2 : data.getD 2 0 < 256 := getD_lt_256 data 2 (by omega) hbytes
  have hlt : ¬ data.length < 3 := by omega
  have hshift := shiftLeft_or_eq_base256 (data.getD 1 0) (data.getD 2 0) hb2
  simp only [List.getD_eq_getElem?_getD] at hshift
  refine ⟨?_, by omega, ?_⟩
  · simp [analyze_led_data_packet, hlt, hshift]
  · simp [analyze_led_data_packet, hlt]

/-- Witness for C6 at the concrete frame `[0x02, 0x01, 0x2C]`
(offset 300, no colour bytes). -/
theorem led_offset_big_endian_witness :
    Option.map LedAnalysis.offset (analyze_led_data_packet [0x02, 0x01, 0x2C])
      = some ([0x02, 0x01, 0x2C].getD 1 0 * 256 + [0x02, 0x01, 0x2C].getD 2 0) ∧
    [0x02, 0x01, 0x2C].getD 1 0 * 256 + [0x02, 0x01, 0x2C].getD 2 0 ≤ 65535 ∧
    Option.map LedAnalysis.ledData (analyze_led_data_packet [0x02, 0x01, 0x2C])
      = some ([0x02, 0x01, 0x2C].drop 3) :=
  led_offset_big_endian [0x02, 0x01, 0x2C] (by decide) (by decide) (by decide)

/-- C7 counterexample: immediately after the Relay's stop returns, its
bound listening socket is still open — stop clears only the running flag,
and the sockets are closed by the receive loop's own cleanup, not by
stop. -/
theorem relay_stop_socket_counterexample :
    (PacketInterceptor.stop
      { running := true, listenSocketOpen := true, forwardSocketOpen := true }
     ).listenSocketOpen = true := by
  decide

/-- C7 (amended): stop is total (no path raises) and idempotent on both
components; the Responder's stop closes its socket when one exists and
retracts the mDNS advertisement when one was published, before returning;
the Relay's stop clears only the running flag and leaves both of its
sockets exactly as they were — they are closed by the receive loop's own
cleanup when it exits, not by stop. -/
theorem stop_idempotent (b : BoardLifecycle) (r : RelayLifecycle) :
    VirtualLedBoard.stop (VirtualLedBoard.stop b) = VirtualLedBoard.stop b ∧
    (VirtualLedBoard.stop b).running = false ∧
    (b.hasSocket = true → (VirtualLedBoard.stop b).socketOpen = false) ∧
    (b.hasMdns = true → (VirtualLedBoard.stop b).mdnsPublished = false) ∧
    PacketInterceptor.stop (PacketInterceptor.stop r) =
      PacketInterceptor.stop r ∧
    (PacketInterceptor.stop r).running = false ∧
    (PacketInterceptor.stop r).listenSocketOpen = r.listenSocketOpen ∧
    (PacketInterceptor.stop r).forwardSocketOpen = r.forwardSocketOpen := by
  refine ⟨?_, rfl, fun hs => ?_, fun hm => ?_, rfl, rfl, rfl, rfl⟩
  · simp [VirtualLedBoard.stop]
  · simp [VirtualLedBoard.stop, hs]
  · simp [VirtualLedBoard.stop, hm]

/-- Witness for C7 (amended) at a fully-started Responder state and a
running Relay state. -/
theorem stop_idempotent_witness :
    VirtualLedBoard.stop (VirtualLedBoard.stop
      ⟨true, true, true, true, true, true⟩) =
      VirtualLedBoard.stop ⟨true, true, true, true, true, true⟩ ∧
    (VirtualLedBoard.stop ⟨true, true, true, true, true, true⟩).running
      = false ∧
    (VirtualLedBoard.stop ⟨true, true, true, true, true, true⟩).socketOpen
      = false ∧
    (VirtualLedBoard.stop ⟨true, true, true, true, true, true⟩).mdnsPublished
      = false ∧
    PacketInterceptor.stop (PacketInterceptor.stop ⟨true, true, true⟩) =
      PacketInterceptor.stop ⟨true, true, true⟩ ∧
    (PacketInterceptor.stop ⟨true, true, true⟩).running = false ∧
    (PacketInterceptor.stop ⟨true, true, true⟩).listenSocketOpen = true ∧
    (PacketInterceptor.stop ⟨true, true, true⟩).forwardSocketOpen = true := by
  have h := stop_idempotent ⟨true, true, true, true, true, true⟩
    ⟨true, true, true⟩
  exact ⟨h.1, h.2.1, h.2.2.1 rfl, h.2.2.2.1 rfl, h.2.2.2.2.1,
         h.2.2.2.2.2.1, h.2.2.2.2.2.2.1, h.2.2.2.2.2.2.2⟩

/-- C8: whenever the bind succeeds, start returns true with the board
Running, its socket bound and open, and the receive loop started, even when
the mDNS library is unavailable or service publication (including address
resolution) fails — the board then simply runs unpublished, over raw
UDP. -/
theorem start_survives_mdns_failure (env : StartEnv)
    (hbind : env.bindOk = true)
    (hfail : env.mdnsAvailable = false ∨ env.mdnsPublishOk = false) :
    (VirtualLedBoard.start env).1 = true ∧
    (VirtualLedBoard.start env).2.running = true ∧
    (VirtualLedBoard.start env).2.socketOpen = true ∧
    (VirtualLedBoard.start env).2.receiveLoopStarted = true ∧
    (VirtualLedBoard.start env).2.mdnsPublished = false := by
  rcases hfail with h | h <;> simp [VirtualLedBoard.start, hbind, h]

/-- Witness for C8 at the environment where zeroconf failed to import but
the bind succeeds. -/
theorem start_survives_mdns_failure_witness :
    (VirtualLedBoard.start ⟨false, true, true⟩).1 = true ∧
    (VirtualLedBoard.start ⟨false, true, true⟩).2.running = true ∧
    (VirtualLedBoard.start ⟨false, true, true⟩).2.socketOpen = true ∧
    (VirtualLedBoard.start ⟨false, true, true⟩).2.receiveLoopStarted = true ∧
    (VirtualLedBoard.start ⟨false, true, true⟩).2.mdnsPublished = false :=
  start_survives_mdns_failure ⟨false, true, true⟩ rfl (Or.inl rfl)

/-- C10: the Relay's logging parse treats every datagram of length at least
3 as an LED-data frame regardless of the command byte — protocol from byte
0, big-endian offset from bytes 1 and 2, colour data `bytes[3:]` with the
GRB count reported exactly when it is non-empty and divisible by 3 — while
every shorter datagram, the valid 1-byte heartbeat and connection-check
frames included, is logged as too short to parse; forwarding is unaffected
in every case. -/
theorem relay_parse_ignores_command (cnt : Nat) (data : Datagram) :
    (3 ≤ data.length →
      Option.map RelayAnalysis.protocol (relay_analyze_packet data)
        = some (data.getD 0 0) ∧
      Option.map RelayAnalysis.offset (relay_analyze_packet data)
        = some ((data.getD 1 0) <<< 8 ||| data.getD 2 0) ∧
      Option.map RelayAnalysis.ledDataLen (relay_analyze_packet data)
        = some ((data.drop 3).length) ∧
      Option.bind (relay_analyze_packet data) (fun a => a.grbCount)
        = (if (data.drop 3).length ≠ 0 ∧ (data.drop 3).length % 3 = 0
           then some ((data.drop 3).length / 3) else none)) ∧
    (data.length < 3 → relay_analyze_packet data = none) ∧
    relay_analyze_packet [0x01] = none ∧
    relay_analyze_packet [0x04] = none ∧
    (relay_handle_datagram cnt data).sends = [data] := by
  refine ⟨fun h3 => ?_, fun hlt => ?_, by decide, by decide, rfl⟩
  · by_cases h0 : data.length - 3 = 0
    · simp [relay_analyze_packet, h3, h0, List.length_drop]
    · simp [relay_analyze_packet, h3, h0, relay_analyze_led_data,
            Nat.pos_of_ne_zero h0, List.length_drop]
  · have h : ¬ 3 ≤ data.length := by omega
    simp [relay_analyze_packet, h]

/-- Witness for C10 at the 4-byte datagram `[0x01, 7, 9, 1]`, whose command
byte is the heartbeat value yet which the relay parses as an LED-data
frame, and at the too-short connection-check frame `[0x04]`. -/
theorem relay_parse_ignores_command_witness :
    Option.map RelayAnalysis.protocol (relay_analyze_packet [0x01, 7, 9, 1])
      = some ([0x01, 7, 9, 1].getD 0 0) ∧
    Option.map RelayAnalysis.offset (relay_analyze_packet [0x01, 7, 9, 1])
      = some (([0x01, 7, 9, 1].getD 1 0) <<< 8 ||| [0x01, 7, 9, 1].getD 2 0) ∧
    Option.map RelayAnalysis.ledDataLen (relay_analyze_packet [0x01, 7, 9, 1])
      = some (([0x01, 7, 9, 1].drop 3).length) ∧
    relay_analyze_packet [0x04] = none ∧
    (relay_handle_datagram 0 [0x01, 7, 9, 1]).sends = [[0x01, 7, 9, 1]] := by
  have h := relay_parse_ignores_command 0 [0x01, 7, 9, 1]
  have h3 := h.1 (by decide)
  exact ⟨h3.1, h3.2.1, h3.2.2.1, h.2.2.2.1, h.2.2.2.2⟩

end AmbientLight
